import Mathlib

/-!
Shallow embedding of the message-stream gateway of `RabbitMQ/RabbitMQStreams.py`
and of the retry loop of `auth/KeycloakAdmin.py`.

Conventions of the embedding:
* The broker client (`rstream` `Producer` / `Consumer`) is an external
  collaborator; its per-call behaviour is a parameter of each model
  (`String → CreateOutcome`, a `SendOutcome`, an `HttpOutcome` per attempt).
* Exceptions are modelled as result constructors; a Python function that
  returns `None` normally is modelled as returning an `ok`-style result.
* Side effects the claims talk about (broker calls made, `asyncio.sleep`
  durations, registry writes, connection closes) are recorded in the returned
  effect structure.  Logging is not observable and is not recorded.
* Python `str.strip()` is modelled by `pyStrip` below (drop leading and
  trailing whitespace characters).
-/

/-- Python `str.strip()`: remove leading and trailing whitespace. -/
def pyStrip (s : String) : String :=
  ⟨((s.data.dropWhile Char.isWhitespace).reverse.dropWhile Char.isWhitespace).reverse⟩

/-- `self.streams_status`: the in-memory dict mapping a stream name to its
last-known availability flag (`True` = Ready, `False` = Failed). -/
structure Registry where
  entries : List (String × Bool)
deriving DecidableEq, Repr

/-- `self.streams_status[room] = v`: a Python dict assignment; the most recent
binding shadows older ones. -/
def Registry.set (r : Registry) (k : String) (v : Bool) : Registry :=
  ⟨(k, v) :: r.entries⟩

/-- Lookup in the association list, most recent binding first. -/
def lookupEntries : List (String × Bool) → String → Option Bool
  | [], _ => none
  | (k, v) :: rest, key => if k = key then some v else lookupEntries rest key

/-- `self.streams_status.get(room)`: `none` when the dict has no entry. -/
def Registry.get? (r : Registry) (k : String) : Option Bool :=
  lookupEntries r.entries k

/-- Outcome of one `self.producer.create_stream(room)` broker call. -/
inductive CreateOutcome
  | ok
  | alreadyExists
  | connectionRefused
  | otherError
deriving DecidableEq, Repr

/-- How one invocation of `RabbitMQStreams.create_stream` terminates:
`ok` = returned `None` normally; the other constructors are the exception
that propagates to the caller. -/
inductive CreateResult
  | ok
  | streamAlreadyExists
  | connectionRefused
  | otherError
deriving DecidableEq, Repr

/-- Registry-independent part of one `create_stream` call:
(termination, broker create calls made, sleep durations performed). -/
def create_stream_run (broker : String → CreateOutcome) (room : String)
    (retry : Nat) (count : Nat) : CreateResult × List String × List Nat :=
  if retry ≤ count then
    -- line 49-50: `if count >= retry: raise ConnectionRefusedError`
    (.connectionRefused, [], [])
  else if pyStrip room = "" then
    -- line 52: `if room.strip() not in [None, '']` fails: skip, return None
    (.ok, [], [])
  else
    match broker room with
    | .ok => (.ok, [room], [])
    | .alreadyExists =>
      -- only ConnectionRefusedError is caught; StreamAlreadyExists propagates
      (.streamAlreadyExists, [room], [])
    | .connectionRefused =>
      -- lines 55-59: log, `await asyncio.sleep(5)`, then
      -- `self.create_stream(room, retry, count + 1)` WITHOUT `await`: the
      -- coroutine is never scheduled, so the recursion has no effect and the
      -- call returns `None` normally after a single broker attempt.
      (.ok, [room], [5])
    | .otherError => (.otherError, [room], [])

/-- Effects of one `RabbitMQStreams.create_stream(room, retry, count)` call. -/
structure CreateEffect where
  result : CreateResult
  calls : List String
  sleeps : List Nat
  registry : Registry
deriving DecidableEq, Repr

/-- `RabbitMQStreams.create_stream` (lines 45-59).  The method body never
reads or writes `self.streams_status`, so the registry passes through
unchanged. -/
def create_stream (broker : String → CreateOutcome) (registry : Registry)
    (room : String) (retry : Nat) (count : Nat) : CreateEffect :=
  let r := create_stream_run broker room retry count
  ⟨r.1, r.2.1, r.2.2, registry⟩

/-- `True` exactly when `_init_streams` records the stream as available after
the corresponding `create_stream` call: the call returned normally or raised
`StreamAlreadyExists`. -/
def streamReady : CreateResult → Bool
  | .ok => true
  | .streamAlreadyExists => true
  | .connectionRefused => false
  | .otherError => false

/-- Effects of one `RabbitMQStreams._init_streams(channels)` call. -/
structure InitEffect where
  returned : List String
  registry : Registry
  failed : List String
  calls : List String
deriving DecidableEq, Repr

/-- The `for room in channels` loop of `_init_streams` (lines 66-82),
returning (final registry, failed list, broker calls made).  The four
handlers map to `streamReady`: no exception (line 70) and
`StreamAlreadyExists` (line 73) set the status `True`;
`ConnectionRefusedError` (line 77) and any other `Exception` (line 81) set
it `False` and append the room to `failed` (lines 78, 82). -/
def init_streams_loop (broker : String → CreateOutcome) (registry : Registry) :
    List String → Registry × List String × List String
  | [] => (registry, [], [])
  | room :: rest =>
    let eff := create_stream broker registry room 10 0
    let ready := streamReady eff.result
    let reg' := Registry.set eff.registry room ready
    let restEff := init_streams_loop broker reg' rest
    (restEff.1,
     (if ready then restEff.2.1 else room :: restEff.2.1),
     eff.calls ++ restEff.2.2)

/-- `RabbitMQStreams._init_streams(channels)` (lines 62-86): runs the loop and
returns `channels` itself (line 86); the `failed` list is only logged. -/
def _init_streams (broker : String → CreateOutcome) (registry : Registry)
    (channels : List String) : InitEffect :=
  let e := init_streams_loop broker registry channels
  ⟨channels, e.1, e.2.1, e.2.2⟩

/-! ### Publish path: `RabbitMQStreams.send_to_stream` (lines 89-113) -/

/-- Outcome of `message.SerializeToString()` (line 93): succeeds or raises. -/
inductive SerializeOutcome
  | ok
  | error
deriving DecidableEq, Repr

/-- Outcome of the `self.producer.send(...)` broker call (lines 94-98). -/
inductive SendOutcome
  | ok
  | streamDoesNotExist
  | otherError
deriving DecidableEq, Repr

/-- How one `send_to_stream` call terminates.  `ok` = returned normally;
the other constructors are the exception propagating to the caller. -/
inductive SendResult
  | ok
  | serializeError
  | keyError
  | sendOtherError
deriving DecidableEq, Repr

/-- Effects of one `send_to_stream(room, message)` call.  `recreateCalls`
counts the invocations of `create_stream` made during missing-stream
recovery. -/
structure SendEffect where
  result : SendResult
  recreateCalls : Nat
  registry : Registry
deriving DecidableEq, Repr

/-- `RabbitMQStreams.send_to_stream` (lines 89-113).

* serialization failure or any `send` error other than `StreamDoesNotExist`
  falls into the outer `except Exception` (lines 111-113): logged and
  re-raised unmodified;
* on `StreamDoesNotExist` (line 99) the handler first evaluates
  `self.streams_status[room]` (line 100) — a `KeyError` raised there when the
  dict has no entry propagates out of the whole `try` (sibling handlers do
  not catch exceptions raised inside a handler);
* otherwise it calls `await self.create_stream(room, 5)` once; if that call
  returns normally the registry entry is set `True` (line 105); if it raises
  (`ConnectionRefusedError` or any other exception, including
  `StreamAlreadyExists`) the inner handlers (lines 106-109) log and swallow
  it, so `send_to_stream` still returns normally. -/
def send_to_stream (serialize : SerializeOutcome) (send : SendOutcome)
    (broker : String → CreateOutcome) (registry : Registry) (room : String) :
    SendEffect :=
  match serialize with
  | .error => ⟨.serializeError, 0, registry⟩
  | .ok =>
    match send with
    | .ok => ⟨.ok, 0, registry⟩
    | .otherError => ⟨.sendOtherError, 0, registry⟩
    | .streamDoesNotExist =>
      match Registry.get? registry room with
      | none => ⟨.keyError, 0, registry⟩
      | some _ =>
        let eff := create_stream broker registry room 5 0
        match eff.result with
        | .ok => ⟨.ok, 1, Registry.set eff.registry room true⟩
        | .connectionRefused => ⟨.ok, 1, eff.registry⟩
        | .streamAlreadyExists => ⟨.ok, 1, eff.registry⟩
        | .otherError => ⟨.ok, 1, eff.registry⟩

/-! ### Consume path: `RabbitMQStreams.consume_messages` (lines 115-157) -/

/-- The `asyncio.Queue` created at line 119 by `Queue()`: only its capacity
matters to the claims.  In asyncio a `maxsize` that is zero means the queue
size is infinite. -/
structure AsyncQueue where
  maxsize : Nat
deriving DecidableEq, Repr

/-- `asyncio.Queue.full()`: `True` only when `maxsize` is positive and the
current size reached it. -/
def AsyncQueue.full (q : AsyncQueue) (size : Nat) : Bool :=
  if q.maxsize = 0 then false else q.maxsize ≤ size

/-- `asyncio.Queue.put` suspends the caller exactly when the queue is full. -/
def AsyncQueue.putBlocks (q : AsyncQueue) (size : Nat) : Bool :=
  q.full size

/-- The queue constructed by `messages = Queue()` (line 119): default
`maxsize=0`, hence infinite capacity. -/
def consume_queue : AsyncQueue := ⟨0⟩

/-- Whether the queue has a finite capacity bound. -/
def AsyncQueue.isBounded (q : AsyncQueue) : Bool :=
  0 < q.maxsize

/-- One inbound broker delivery, after `ParseFromString` (line 124):
`some m` = the bytes decoded to payload `m`; `none` = decoding raised. -/
abbrev Delivery := Option Nat

/-- Result of running the `on_message` callback (lines 121-127) on one
delivery: what was enqueued (if anything) and whether an exception escaped
the callback. -/
structure OnMsgResult where
  enqueued : Option Nat
  raised : Bool
deriving DecidableEq, Repr

/-- The `on_message` callback (lines 121-127): decode, then
`await messages.put(message)`; any exception is caught inside the callback
(lines 126-127), logged and dropped, so nothing escapes and a failed
message is not enqueued. -/
def on_message : Delivery → OnMsgResult
  | some m => ⟨some m, false⟩
  | none => ⟨none, false⟩

/-- Queue contents (FIFO order) after the callback processed a list of
deliveries. -/
def deliverAll (deliveries : List Delivery) : List Nat :=
  deliveries.filterMap fun d => (on_message d).enqueued

/-- How the body of `consume_messages` runs, determining its exit path. -/
inductive ExitKind
  | cancelled
  | loopError
  | generatorClose
deriving DecidableEq, Repr

/-- Which step of `consume_messages` fails, or how the pull loop exits. -/
inductive ConsumeScript
  | initFails
  | startFails
  | subscribeFails
  | runLoop (exit : ExitKind)
deriving DecidableEq, Repr

/-- What propagates to the caller of `consume_messages` when it exits. -/
inductive ConsumeError
  | initError
  | startError
  | subscribeError
  | generatorExit
  | closeError
deriving DecidableEq, Repr

/-- Effects of one `consume_messages` run. -/
structure ConsumeEffect where
  closeCalls : Nat
  closeErrorLogged : Bool
  propagated : Option ConsumeError
  registry : Registry
deriving DecidableEq, Repr

/-- Whether the `Consumer(...)` constructor (line 118) completed, so that the
local `consumer` variable is not `None` in the `finally` block. -/
def consumerCreated : ConsumeScript → Bool
  | .initFails => false
  | .startFails => true
  | .subscribeFails => true
  | .runLoop _ => true

/-- `RabbitMQStreams.consume_messages` (lines 115-157).

* `initFails`: `Consumer(...)` raises; the outer `except Exception`
  (lines 146-148) logs and re-raises; in `finally`, `consumer` is `None`
  so `close()` is never called.
* `startFails` / `subscribeFails`: `consumer.start()` or
  `consumer.subscribe(...)` raises; outer handler re-raises; `finally`
  closes the consumer once.
* `runLoop .cancelled`: `asyncio.CancelledError` in the pull loop is caught
  and logged (lines 140-141); the generator then ends normally.
* `runLoop .loopError`: any other `Exception` in the pull loop is caught
  and logged (lines 142-143); the generator then ends normally.
* `runLoop .generatorClose`: `GeneratorExit` is a `BaseException`, caught by
  neither inner handler, so it runs `finally` and propagates.
* In every case the `finally` block (lines 149-156) calls `close()` at most
  once, and a failure of `close()` is caught, logged and never re-raised
  (`closeFails` only flips `closeErrorLogged`).
* The method never touches `self.streams_status`. -/
def consume_messages (registry : Registry) (room : String)
    (script : ConsumeScript) (closeFails : Bool) : ConsumeEffect :=
  match script with
  | .initFails => ⟨0, false, some .initError, registry⟩
  | .startFails => ⟨1, closeFails, some .startError, registry⟩
  | .subscribeFails => ⟨1, closeFails, some .subscribeError, registry⟩
  | .runLoop e =>
    match e with
    | .cancelled => ⟨1, closeFails, none, registry⟩
    | .loopError => ⟨1, closeFails, none, registry⟩
    | .generatorClose => ⟨1, closeFails, some .generatorExit, registry⟩

/-! ### Identity-provider admin client: `KeycloakAdmin._make_request_with_retry`
(auth/KeycloakAdmin.py, lines 92-155).  In `__init__`, `self.max_retries = 3`
and `self.retry_delay = 1`. -/

/-- The localized business-error keys raised as `BusinessException`. -/
inductive BusinessError
  | authServerUnavailable
  | authTokenExpired
  | userNotFound
  | unexpectedError
deriving DecidableEq, Repr

/-- Outcome of the HTTP request of one loop iteration (request plus
`raise_for_status`):
* `success s` — 2xx response with status `s`;
* `responseError s` — `aiohttp.ClientResponseError` with status `s`;
* `connectionError` — `ClientConnectionError` / `ClientTimeout`;
* `clientError` — any other `aiohttp.ClientError`. -/
inductive HttpOutcome
  | success (status : Nat)
  | responseError (status : Nat)
  | connectionError
  | clientError
deriving DecidableEq, Repr

/-- How `_make_request_with_retry` terminates. -/
inductive RequestResult
  | ok (status : Nat)
  | businessError (e : BusinessError)
deriving DecidableEq, Repr

/-- Effects of `_make_request_with_retry`: result, the `asyncio.sleep`
durations performed (in order), and the number of token-cache clears. -/
structure RetryEffect where
  result : RequestResult
  sleeps : List Nat
  cacheClears : Nat
deriving DecidableEq, Repr

/-- The `for attempt in range(self.max_retries)` loop (lines 92-152),
written with the remaining iteration count as fuel (`attempt + remaining =
max_retries` at every call).  Per iteration, `outcome attempt` gives the
HTTP result:

* success → return the response (line 102);
* `ClientResponseError` with status 401/403 → if `attempt < max_retries-1`
  clear the token cache and continue, else raise `AUTH_TOKEN_EXPIRED`
  (lines 113-122);
* status 404 → `USER_NOT_FOUND` when `'user' in url.lower()` else
  `UNEXPECTED_ERROR` (lines 123-131);
* status ≥ 500 → `AUTH_SERVER_UNAVAILABLE` (lines 132-135);
* other response status → `UNEXPECTED_ERROR` (lines 136-139);
* connection error → if `attempt < max_retries-1` sleep
  `retry_delay * 2 ** attempt` and continue, else break (lines 141-146);
* other `ClientError` → `AUTH_SERVER_UNAVAILABLE` (lines 147-150);
* loop exhausted or broken out of → `AUTH_SERVER_UNAVAILABLE`
  (lines 153-155). -/
def make_request_loop (outcome : Nat → HttpOutcome)
    (max_retries retry_delay : Nat) (userInUrl : Bool) :
    Nat → Nat → RetryEffect
  | _, 0 => ⟨.businessError .authServerUnavailable, [], 0⟩
  | attempt, remaining + 1 =>
    match outcome attempt with
    | .success s => ⟨.ok s, [], 0⟩
    | .responseError s =>
      if s = 401 ∨ s = 403 then
        if attempt < max_retries - 1 then
          let rest := make_request_loop outcome max_retries retry_delay
            userInUrl (attempt + 1) remaining
          ⟨rest.result, rest.sleeps, rest.cacheClears + 1⟩
        else ⟨.businessError .authTokenExpired, [], 0⟩
      else if s = 404 then
        if userInUrl then ⟨.businessError .userNotFound, [], 0⟩
        else ⟨.businessError .unexpectedError, [], 0⟩
      else if 500 ≤ s then ⟨.businessError .authServerUnavailable, [], 0⟩
      else ⟨.businessError .unexpectedError, [], 0⟩
    | .connectionError =>
      if attempt < max_retries - 1 then
        let rest := make_request_loop outcome max_retries retry_delay
          userInUrl (attempt + 1) remaining
        ⟨rest.result, retry_delay * 2 ^ attempt :: rest.sleeps,
         rest.cacheClears⟩
      else ⟨.businessError .authServerUnavailable, [], 0⟩
    | .clientError => ⟨.businessError .authServerUnavailable, [], 0⟩

/-- `KeycloakAdmin._make_request_with_retry`, starting at attempt 0. -/
def make_request_with_retry (outcome : Nat → HttpOutcome)
    (max_retries retry_delay : Nat) (userInUrl : Bool) : RetryEffect :=
  make_request_loop outcome max_retries retry_delay userInUrl 0 max_retries

/-! ## Helper lemmas -/

theorem Registry.get?_set_same (r : Registry) (k : String) (v : Bool) :
    Registry.get? (Registry.set r k v) k = some v := by
  simp [Registry.get?, Registry.set, lookupEntries]

theorem Registry.get?_set_other (r : Registry) (k key : String) (v : Bool)
    (h : k ≠ key) :
    Registry.get? (Registry.set r k v) key = Registry.get? r key := by
  simp [Registry.get?, Registry.set, lookupEntries, h]

theorem create_stream_registry (b : String → CreateOutcome) (reg : Registry)
    (room : String) (retry count : Nat) :
    (create_stream b reg room retry count).registry = reg := rfl

/-- Any broker call recorded by `create_stream_run` is for `room` itself, and
happens only when the name is not blank. -/
theorem create_stream_run_calls_nonblank (b : String → CreateOutcome)
    (room : String) (retry count : Nat) :
    ∀ r ∈ (create_stream_run b room retry count).2.1,
      r = room ∧ pyStrip room ≠ "" := by
  unfold create_stream_run
  split
  · simp
  · split
    · simp
    · rename_i hblank
      cases b room <;> simp_all

/-- Names not in `channels` keep their registry value across the
`_init_streams` loop. -/
theorem init_loop_get_not_mem (b : String → CreateOutcome) :
    ∀ (channels : List String) (reg : Registry) (k : String),
      k ∉ channels →
      Registry.get? (init_streams_loop b reg channels).1 k =
        Registry.get? reg k := by
  intro channels
  induction channels with
  | nil => intro reg k _; rfl
  | cons room rest ih =>
    intro reg k hk
    simp only [List.mem_cons, not_or] at hk
    simp only [init_streams_loop]
    rw [ih _ _ hk.2]
    exact Registry.get?_set_other _ _ _ _ (fun h => hk.1 h.symm)

/-- Every name in `channels` ends with the registry value given by
`streamReady` of its own `create_stream` call. -/
theorem init_loop_get_mem (b : String → CreateOutcome) :
    ∀ (channels : List String) (reg : Registry) (k : String),
      k ∈ channels →
      Registry.get? (init_streams_loop b reg channels).1 k =
        some (streamReady (create_stream_run b k 10 0).1) := by
  intro channels
  induction channels with
  | nil => intro reg k hk; cases hk
  | cons room rest ih =>
    intro reg k hk
    by_cases hmem : k ∈ rest
    · simp only [init_streams_loop]
      exact ih _ _ hmem
    · have hkr : k = room := by
        rcases List.mem_cons.mp hk with h | h
        · exact h
        · exact absurd h hmem
      subst hkr
      simp only [init_streams_loop]
      rw [init_loop_get_not_mem b rest _ _ hmem]
      exact Registry.get?_set_same _ _ _

/-- A blank name is never among the broker calls made by the loop. -/
theorem init_loop_calls_blank (b : String → CreateOutcome) :
    ∀ (channels : List String) (reg : Registry) (k : String),
      pyStrip k = "" →
      k ∉ (init_streams_loop b reg channels).2.2 := by
  intro channels
  induction channels with
  | nil => intro reg k _ h; cases h
  | cons room rest ih =>
    intro reg k hblank h
    simp only [init_streams_loop, List.mem_append] at h
    rcases h with h | h
    · rcases create_stream_run_calls_nonblank b room 10 0 k h with ⟨rfl, hne⟩
      exact hne hblank
    · exact ih _ _ hblank h

/-! ## Claims -/

/-- C1: the claim says `create_stream` under persistent `ConnectionRefused`
retries exactly 10 times with a 5-second delay between attempts and then
signals `ConnectionRefusedError`, the stream ending up marked Failed.  The
code does not do this: the recursive retry at line 59 is not awaited, so the
call makes exactly one broker attempt, sleeps once, returns `None` normally,
and `_init_streams` then marks the stream `True` (Ready).  This theorem
evaluates the model at the failing input. -/
theorem C1_unawaited_retry_single_attempt :
    create_stream (fun _ => .connectionRefused) ⟨[]⟩ "room1" 10 0 =
      ⟨.ok, ["room1"], [5], ⟨[]⟩⟩ ∧
    Registry.get?
      (_init_streams (fun _ => .connectionRefused) ⟨[]⟩ ["room1"]).registry
      "room1" = some true := by
  decide

/-- C2 counterexample: the internal queue of `consume_messages` is created by
`Queue()` with the default `maxsize=0`, so it is not bounded — refuting the
claim that the queue is bounded and that the callback blocks when it is
full. -/
theorem C2_counterexample :
    consume_queue.isBounded = false ∧ consume_queue.putBlocks 1000000 = false := by
  decide

/-- C2 (amended): the internal queue between the broker callback and the
consume caller is unbounded (`maxsize = 0`); it is never full, so the
decode-and-enqueue callback never blocks (and never drops a message for lack
of space). -/
theorem C2_queue_unbounded :
    consume_queue.maxsize = 0 ∧
    ∀ size : Nat,
      consume_queue.full size = false ∧ consume_queue.putBlocks size = false := by
  refine ⟨rfl, fun size => ⟨rfl, rfl⟩⟩

/-- C3 counterexample: with the stream present in the registry, the broker
reporting `StreamDoesNotExist` on send and refusing the connection on the
recovery `create_stream` call, `send_to_stream` still terminates with `.ok`:
the recovery failure is logged and swallowed, not surfaced to the caller
(and the registry is even marked `True`). -/
theorem C3_counterexample :
    send_to_stream .ok .streamDoesNotExist (fun _ => .connectionRefused)
        ⟨[("chat", true)]⟩ "chat" =
      ⟨.ok, 1, ⟨[("chat", true), ("chat", true)]⟩⟩ ∧
    (create_stream (fun _ => .connectionRefused) ⟨[("chat", true)]⟩ "chat" 5 0).calls
      = ["chat"] := by
  decide

/-- C3 (amended): when the broker reports the target stream does not exist
and the stream has a registry entry, exactly one recreation attempt with
`maxAttempts = 5` is made (no unbounded loop), and `send_to_stream` returns
normally whatever the recovery outcome — a failing recovery is logged and
swallowed, not surfaced.  When the stream has no registry entry, the status
lookup at line 100 raises `KeyError` before any recovery attempt. -/
theorem C3_one_recovery_attempt_swallowed (b : String → CreateOutcome)
    (reg : Registry) (room : String) :
    ((Registry.get? reg room).isSome = true →
      (send_to_stream .ok .streamDoesNotExist b reg room).recreateCalls = 1 ∧
      (send_to_stream .ok .streamDoesNotExist b reg room).result = .ok) ∧
    ((Registry.get? reg room).isSome = false →
      (send_to_stream .ok .streamDoesNotExist b reg room).recreateCalls = 0 ∧
      (send_to_stream .ok .streamDoesNotExist b reg room).result = .keyError) := by
  unfold send_to_stream
  cases h : Registry.get? reg room
  · simp
  · cases hr : (create_stream b reg room 5 0).result <;> simp [hr]

/-- C3 witness: the amended theorem applied at a concrete input. -/
theorem C3_witness :
    (send_to_stream .ok .streamDoesNotExist (fun _ => .connectionRefused)
        ⟨[("chat", true)]⟩ "chat").recreateCalls = 1 ∧
    (send_to_stream .ok .streamDoesNotExist (fun _ => .connectionRefused)
        ⟨[("chat", true)]⟩ "chat").result = .ok :=
  (C3_one_recovery_attempt_swallowed (fun _ => .connectionRefused)
    ⟨[("chat", true)]⟩ "chat").1 (by decide)

/-- C4: feeding the callback N well-formed deliveries, one delivery whose
decode fails, then M well-formed deliveries puts exactly the N+M decoded
payloads on the queue in the original relative order (the caller's pull loop
yields the queue FIFO, so the consume sequence yields exactly these); the
malformed delivery is dropped inside the callback and no exception escapes
it, so the subscription is not torn down. -/
theorem deliverAll_map_some (xs : List Nat) : deliverAll (xs.map some) = xs := by
  induction xs with
  | nil => rfl
  | cons x xs ih =>
    simp only [List.map_cons, deliverAll, List.filterMap_cons] at ih ⊢
    simp only [on_message] at ih ⊢
    rw [ih]

theorem C4_malformed_message_dropped (xs ys : List Nat) :
    deliverAll (xs.map some ++ none :: ys.map some) = xs ++ ys ∧
    ∀ d : Delivery, (on_message d).raised = false := by
  constructor
  · calc deliverAll (xs.map some ++ none :: ys.map some)
        = deliverAll (xs.map some) ++ deliverAll (none :: ys.map some) :=
          List.filterMap_append _ _ _
      _ = xs ++ deliverAll (ys.map some) := by rw [deliverAll_map_some]; rfl
      _ = xs ++ ys := by rw [deliverAll_map_some]
  · intro d; cases d <;> rfl

/-- C5: on every exit path of `consume_messages` — normal completion of the
pull loop, caller cancellation, loop error, generator close, or a failure
while starting or subscribing — the dedicated consumer connection is closed
exactly once when the `Consumer` object was created (and never when its
construction itself failed, in which case there is no connection); a failing
`close()` is logged exactly when it happens, is never what propagates, and
does not change what the caller observes; and the registry is left
unchanged. -/
theorem C5_consumer_closed_once (reg : Registry) (room : String)
    (script : ConsumeScript) (closeFails : Bool) :
    (consume_messages reg room script closeFails).closeCalls =
      (if consumerCreated script then 1 else 0) ∧
    (consume_messages reg room script closeFails).closeErrorLogged =
      (closeFails && consumerCreated script) ∧
    (consume_messages reg room script closeFails).propagated ≠
      some .closeError ∧
    (consume_messages reg room script closeFails).propagated =
      (consume_messages reg room script false).propagated ∧
    (consume_messages reg room script closeFails).registry = reg := by
  cases script with
  | initFails =>
    refine ⟨rfl, by cases closeFails <;> rfl, ?_, rfl, rfl⟩
    exact fun h => nomatch h
  | startFails =>
    refine ⟨rfl, by cases closeFails <;> rfl, ?_, rfl, rfl⟩
    exact fun h => nomatch h
  | subscribeFails =>
    refine ⟨rfl, by cases closeFails <;> rfl, ?_, rfl, rfl⟩
    exact fun h => nomatch h
  | runLoop e =>
    cases e <;> refine ⟨rfl, by cases closeFails <;> rfl, ?_, rfl, rfl⟩ <;>
      exact fun h => nomatch h

/-- C6 counterexample: `_init_streams` does not return a per-name outcome
report.  On the same input `["a"]`, a broker that creates the stream and a
broker that fails with an unexpected error produce the identical return
value (the input list itself), even though the two runs have different
outcomes, as their registry states show. -/
theorem C6_counterexample :
    (_init_streams (fun _ => .ok) ⟨[]⟩ ["a"]).returned =
      (_init_streams (fun _ => .otherError) ⟨[]⟩ ["a"]).returned ∧
    Registry.get? (_init_streams (fun _ => .ok) ⟨[]⟩ ["a"]).registry "a" ≠
      Registry.get? (_init_streams (fun _ => .otherError) ⟨[]⟩ ["a"]).registry
        "a" := by
  decide

/-- C6 (amended): `_init_streams` invokes `create_stream` for each name
independently; an individual name's failure does not abort the remaining
names — every name in the list ends with a registry entry, which is `True`
iff its `create_stream` call returned normally or raised
`StreamAlreadyExists` (because of the unawaited retry, a connection-refused
broker also counts as a normal return).  The call returns the input channel
list unchanged, not a per-name outcome report; the failed names are only
logged. -/
theorem C6_init_streams_outcomes (b : String → CreateOutcome) (reg : Registry)
    (channels : List String) :
    (_init_streams b reg channels).returned = channels ∧
    ∀ k, k ∈ channels →
      Registry.get? (_init_streams b reg channels).registry k =
        some (streamReady (create_stream_run b k 10 0).1) := by
  constructor
  · rfl
  · intro k hk
    exact init_loop_get_mem b channels reg k hk

/-- C6 witness: the amended theorem applied at a concrete input where the
broker fails with an unexpected error, so the registry records `False`. -/
theorem C6_witness :
    Registry.get?
      (_init_streams (fun _ => .otherError) ⟨[]⟩ ["a"]).registry "a" =
      some false := by
  have h :=
    (C6_init_streams_outcomes (fun _ => .otherError) ⟨[]⟩ ["a"]).2 "a"
      (by decide)
  rw [h]
  rfl

/-- C7: an empty or whitespace-only stream name passed to `create_stream`
(with the attempt budget not yet exhausted, as with the default arguments
`retry=10`, `count=0`) makes no broker call, creates no registry entry, and
returns normally — the skip is silent, not an error. -/
theorem C7_blank_name_skipped (b : String → CreateOutcome) (reg : Registry)
    (room : String) (retry count : Nat) (hcount : count < retry)
    (hblank : pyStrip room = "") :
    create_stream b reg room retry count = ⟨.ok, [], [], reg⟩ := by
  unfold create_stream create_stream_run
  rw [if_neg (by omega), if_pos hblank]

/-- C7 witness: the theorem applied to the one-space name with the default
arguments. -/
theorem C7_witness :
    create_stream (fun _ => .ok) ⟨[]⟩ " " 10 0 = ⟨.ok, [], [], ⟨[]⟩⟩ :=
  C7_blank_name_skipped (fun _ => .ok) ⟨[]⟩ " " 10 0 (by decide) (by decide)

/-- C8: in `send_to_stream`, a serialization failure, and any broker `send`
error other than `StreamDoesNotExist`, are logged and re-raised to the
caller unmodified: the call terminates with exactly that error, makes no
recovery `create_stream` call, and leaves the registry untouched. -/
theorem C8_unexpected_errors_reraised (send : SendOutcome)
    (b : String → CreateOutcome) (reg : Registry) (room : String) :
    send_to_stream .error send b reg room = ⟨.serializeError, 0, reg⟩ ∧
    send_to_stream .ok .otherError b reg room = ⟨.sendOtherError, 0, reg⟩ :=
  ⟨rfl, rfl⟩

/-- Under persistent connection failure, the Keycloak retry loop sleeps
`retry_delay * 2 ^ attempt` before each retried attempt. -/
theorem keycloak_connection_retry_sleeps (rd m : Nat) :
    ∀ (r a : Nat), a + r = m →
      (make_request_loop (fun _ => .connectionError) m rd false a r).sleeps =
        (List.range' a (r - 1)).map fun x => rd * 2 ^ x := by
  intro r
  induction r with
  | zero => intro a _; rfl
  | succ r ih =>
    intro a ha
    simp only [make_request_loop]
    by_cases hlt : a < m - 1
    · rw [if_pos hlt]
      have hr1 : 1 ≤ r := by omega
      obtain ⟨r', rfl⟩ : ∃ r', r = r' + 1 := ⟨r - 1, by omega⟩
      rw [ih (a + 1) (by omega)]
      simp [List.range'_succ]
    · rw [if_neg hlt]
      have hr0 : r = 0 := by omega
      subst hr0
      rfl

/-- C9: the two retry mechanisms use different delay schedules.  Stream
creation in the gateway only ever sleeps the fixed 5 seconds (its sleep
list is `[]` or `[5]` whatever the attempt number), while the
identity-provider admin client under persistent connection failure sleeps
the exponentially growing `retry_delay * 2 ^ attempt` before each retried
attempt; with the constructor values `max_retries = 3`, `retry_delay = 1`
that schedule is `[1, 2]`. -/
theorem C9_fixed_vs_exponential_delay :
    (∀ (b : String → CreateOutcome) (reg : Registry) (room : String)
        (retry count : Nat),
      (create_stream b reg room retry count).sleeps = [] ∨
      (create_stream b reg room retry count).sleeps = [5]) ∧
    (∀ (rd m : Nat),
      (make_request_with_retry (fun _ => .connectionError) m rd false).sleeps =
        (List.range (m - 1)).map fun a => rd * 2 ^ a) ∧
    (make_request_with_retry (fun _ => .connectionError) 3 1 false).sleeps =
      [1, 2] := by
  refine ⟨?_, ?_, by decide⟩
  · intro b reg room retry count
    show (create_stream_run b room retry count).2.2 = [] ∨
      (create_stream_run b room retry count).2.2 = [5]
    unfold create_stream_run
    split
    · exact Or.inl rfl
    · split
      · exact Or.inl rfl
      · cases b room <;> simp
  · intro rd m
    rw [make_request_with_retry,
      keycloak_connection_retry_sleeps rd m m 0 (by omega),
      List.range_eq_range']

/-- C10: a list passed to `_init_streams` containing an empty or
whitespace-only name records that name in the registry as Ready (`True`)
even though no broker create-stream call was made for it: the blank name is
skipped inside `create_stream`, which returns normally, and the bulk loop
then marks it `True` at line 70. -/
theorem C10_blank_name_marked_ready (b : String → CreateOutcome)
    (reg : Registry) (channels : List String) (name : String)
    (hmem : name ∈ channels) (hblank : pyStrip name = "") :
    Registry.get? (_init_streams b reg channels).registry name = some true ∧
    name ∉ (_init_streams b reg channels).calls := by
  constructor
  · have h := init_loop_get_mem b channels reg name hmem
    have hrun : create_stream_run b name 10 0 = (.ok, [], []) := by
      unfold create_stream_run
      rw [if_neg (by omega), if_pos hblank]
    show Registry.get? (init_streams_loop b reg channels).1 name = some true
    rw [h, hrun]
    rfl
  · exact init_loop_calls_blank b channels reg name hblank

/-- C10 witness: the theorem applied to a concrete list holding a
whitespace-only name. -/
theorem C10_witness :
    Registry.get?
      (_init_streams (fun _ => .ok) ⟨[]⟩ ["  ", "a"]).registry "  " =
      some true ∧
    "  " ∉ (_init_streams (fun _ => .ok) ⟨[]⟩ ["  ", "a"]).calls :=
  C10_blank_name_marked_ready (fun _ => .ok) ⟨[]⟩ ["  ", "a"] "  "
    (by decide) (by decide)
